import Mathlib

/-!
Shallow embedding of the skill gap analysis engine of the repository
(`backend/app/services/skill_analyzer.py`, class `SkillGapAnalyzer`).

Modelling conventions:
* Similarity scores are rationals (`ℚ`).  The Python code works with floats,
  but every claim under study is about comparisons, selection and exact
  arithmetic (`/`, `*`, `max`), which ℚ models exactly.
* The SBERT embedding model together with `sklearn.cosine_similarity` is an
  external black box.  It is modelled by a parameter
  `sem : String → List ℚ` giving, for a candidate skill string, the list of
  cosine similarities against the vocabulary (one entry per vocabulary
  skill, in vocabulary order), exactly the row `similarities[i]` of the code.
* `fuzzywuzzy.fuzz.ratio(a, b) / 100.0` is an external lexical
  edit-distance ratio; it is modelled by a parameter
  `fz : String → String → ℚ`.  The code always calls it on lowercased
  strings, which the model reproduces with `pyLower`.
* Python dictionaries that the code only reads by key lookup
  (`job_skill_mapping`) are association lists with `List.lookup`;
  dictionaries with a fixed literal set of keys iterated in insertion order
  (`skill_categories`, `time_map`, `prereq_map`, the category buckets) are
  literal association lists in the insertion order of the source.
* `np.argmax` returns the index of the first maximal element; it is
  modelled by `bestWithIdx`, which returns `none` exactly when the array is
  empty (where `np.argmax` raises).
-/

/-- Matcher output record (one per accepted candidate skill), mirroring the
dict appended at `skill_analyzer.py:120-125`. -/
structure SkillMatch where
  original_skill : String
  matched_skill : String
  confidence : ℚ
  match_type : String
  deriving Repr, DecidableEq

/-- First maximal element of a list together with its index:
`bestWithIdx l = some (m, i)` means `m` is the maximum of `l` and `i` the
first index attaining it (the behaviour of `np.argmax`); `none` on `[]`. -/
def bestWithIdx : List ℚ → Option (ℚ × Nat)
  | [] => none
  | x :: xs =>
    match bestWithIdx xs with
    | none => some (x, 0)
    | some (m, i) => if x ≥ m then some (x, 0) else some (m, i + 1)

/-- Maximum of a list of scores (`none` on the empty list). -/
def listMax : List ℚ → Option ℚ
  | [] => none
  | x :: xs =>
    match listMax xs with
    | none => some x
    | some m => some (max x m)

/-- The model of Python `str.lower()` (characterwise lowercasing; the model
of every `.lower()` call in the source).  Defined over the character list so
that the kernel can evaluate it (`String.toLower` does not reduce
definitionally). -/
def pyLower (s : String) : String :=
  ⟨s.data.map Char.toLower⟩

/-- The lexical scores the code computes at `skill_analyzer.py:104-105`:
`[fuzz.ratio(resume_skill.lower(), skill.lower()) / 100.0 for skill in skill_list]`. -/
def fuzzyScores (fz : String → String → ℚ) (skill_list : List String)
    (resume_skill : String) : List ℚ :=
  skill_list.map fun skill => fz (pyLower resume_skill) (pyLower skill)

/-- Body of the per-candidate loop of `extract_and_match_skills`
(`skill_analyzer.py:96-125`): pick the best semantic and best fuzzy match,
keep whichever scores higher (semantic on ties, the `>=` of the code), and emit
a `SkillMatch` iff the winning score reaches the threshold.  Returns `none`
both when the candidate is dropped by the threshold and in the (in Python,
exception-raising) degenerate case of an empty vocabulary; the theorems
about matching therefore assume a non-empty vocabulary. -/
def matchOne (sem : String → List ℚ) (fz : String → String → ℚ)
    (skill_list : List String) (similarity_threshold : ℚ)
    (resume_skill : String) : Option SkillMatch :=
  match bestWithIdx (sem resume_skill),
        bestWithIdx (fuzzyScores fz skill_list resume_skill) with
  | some (best_similarity, best_match_idx),
    some (best_fuzzy_score, best_fuzzy_idx) =>
    let final_match_idx :=
      if best_similarity ≥ best_fuzzy_score then best_match_idx else best_fuzzy_idx
    let final_score :=
      if best_similarity ≥ best_fuzzy_score then best_similarity else best_fuzzy_score
    let match_type :=
      if best_similarity ≥ best_fuzzy_score then "semantic" else "fuzzy"
    if final_score ≥ similarity_threshold then
      some { original_skill := resume_skill
             matched_skill := skill_list.getD final_match_idx ""
             confidence := final_score
             match_type := match_type }
    else none
  | _, _ => none

/-- Model of `SkillGapAnalyzer.extract_and_match_skills` (`skill_analyzer.py:75-127`):
empty input returns empty output; otherwise each candidate is processed by
the loop body `matchOne` and the accepted matches are collected in order. -/
def extract_and_match_skills (sem : String → List ℚ) (fz : String → String → ℚ)
    (skill_list : List String) (similarity_threshold : ℚ)
    (resume_skills : List String) : List SkillMatch :=
  if resume_skills.isEmpty then []
  else resume_skills.filterMap (matchOne sem fz skill_list similarity_threshold)

/-- One entry of the `"skills"` list of a job; the analyzer reads only the
`"skill"` field (`skill_analyzer.py:169`). -/
structure SkillInfo where
  skill : String
  deriving Repr, DecidableEq

/-- The entry of a job in the job-skill mapping; the fields the analyzer reads via
`.get` with empty-list defaults (`skill_analyzer.py:141-146,169-171`). -/
structure JobRequirements where
  skills : List SkillInfo
  hot_technologies : List String
  in_demand_skills : List String
  tasks : List String
  deriving Repr, DecidableEq

/-- The empty default dict returned for an unknown job
(`skill_analyzer.py:141-146`). -/
def emptyJobRequirements : JobRequirements :=
  { skills := [], hot_technologies := [], in_demand_skills := [], tasks := [] }

/-- Model of `SkillGapAnalyzer.get_job_required_skills` (`skill_analyzer.py:129-148`):
unknown job → the empty default dict, known job → its mapping entry. -/
def get_job_required_skills (job_skill_mapping : List (String × JobRequirements))
    (job_profession : String) : JobRequirements :=
  match job_skill_mapping.lookup job_profession with
  | none => emptyJobRequirements
  | some r => r

/-- Predicate `charsPrefixOf n h`: holds when the character list `n` is a prefix of `h`. -/
def charsPrefixOf : List Char → List Char → Bool
  | [], _ => true
  | _ :: _, [] => false
  | a :: as, b :: bs => a == b && charsPrefixOf as bs

/-- Predicate `charsInfixOf n h`: holds when the character list `n` occurs contiguously
inside `h`. -/
def charsInfixOf (needle : List Char) : List Char → Bool
  | [] => needle.isEmpty
  | b :: bs => charsPrefixOf needle (b :: bs) || charsInfixOf needle bs

/-- Substring containment, the model of Python `needle in haystack` on
strings (`cat_skill.lower() in skill.lower()` etc.). -/
def strContains (haystack needle : String) : Bool :=
  charsInfixOf needle.data haystack.data

/-- One learning-path entry (`skill_analyzer.py:287-292`). -/
structure LearningPathItem where
  skill : String
  category : String
  estimated_weeks : Nat
  prerequisites : List String
  deriving Repr, DecidableEq

/-- One priority-order entry (`skill_analyzer.py:231-246`). -/
structure PriorityItem where
  skill : String
  priority : String
  reason : String
  deriving Repr, DecidableEq

/-- The recommendations record (`skill_analyzer.py:223-227`); the source
initialises `estimated_time` to `{}` and never fills it. -/
structure Recommendations where
  priority_order : List PriorityItem
  learning_path : List LearningPathItem
  estimated_time : List (String × Nat)
  deriving Repr, DecidableEq

/-- The category keyword dict of `_create_learning_path`
(`skill_analyzer.py:257-264`), in the insertion order of the source. -/
def skill_categories_table : List (String × List String) :=
  [("programming", ["Python", "Java", "JavaScript", "C++", "R"]),
   ("data_science", ["Machine Learning", "Deep Learning", "Statistics", "Data Analysis"]),
   ("web", ["HTML", "CSS", "React", "Angular", "Node.js"]),
   ("database", ["SQL", "MySQL", "PostgreSQL", "MongoDB"]),
   ("cloud", ["AWS", "Azure", "Google Cloud", "Docker", "Kubernetes"]),
   ("tools", ["Git", "Docker", "Jenkins", "Tableau"])]

/-- Category assignment of `_create_learning_path` (`skill_analyzer.py:270-275`):
first category (in dict insertion order) one of whose keywords is a
lowercased substring of the lowercased skill; `"other"` when none is. -/
def categoryOf (skill : String) : String :=
  match skill_categories_table.find?
      (fun p => p.2.any fun cat_skill => strContains (pyLower skill) (pyLower cat_skill)) with
  | some p => p.1
  | none => "other"

/-- Model of `SkillGapAnalyzer._estimate_learning_time` (`skill_analyzer.py:296-307`). -/
def _estimate_learning_time (skill : String) (category : String) : Nat :=
  (([("programming", 8), ("data_science", 12), ("web", 6), ("database", 4),
     ("cloud", 6), ("tools", 2), ("other", 4)] : List (String × Nat)).lookup
    category).getD 4

/-- Model of `SkillGapAnalyzer._get_prerequisites` (`skill_analyzer.py:309-319`). -/
def _get_prerequisites (skill : String) (category : String) : List String :=
  (([("Machine Learning", ["Python", "Statistics", "Mathematics"]),
     ("Deep Learning", ["Machine Learning", "Python", "TensorFlow"]),
     ("React", ["JavaScript", "HTML", "CSS"]),
     ("Node.js", ["JavaScript"]),
     ("Docker", ["Linux", "Command Line"]),
     ("Kubernetes", ["Docker", "Linux"])] : List (String × List String)).lookup
    skill).getD []

/-- Fixed category emission order of `_create_learning_path`
(`skill_analyzer.py:282`). -/
def learning_order : List String :=
  ["programming", "database", "tools", "data_science", "web", "cloud", "other"]

/-- Model of `SkillGapAnalyzer._create_learning_path` (`skill_analyzer.py:254-294`):
group the input skills by `categoryOf` (a stable partition, preserving the
relative input order inside each group), then emit the groups in the fixed
`learning_order`. -/
def _create_learning_path (skills : List String) : List LearningPathItem :=
  (learning_order.map fun category =>
    (skills.filter fun s => categoryOf s == category).map fun skill =>
      { skill := skill
        category := category
        estimated_weeks := _estimate_learning_time skill category
        prerequisites := _get_prerequisites skill category }).flatten

/-- Model of `SkillGapAnalyzer._generate_recommendations` (`skill_analyzer.py:218-252`):
priority order lists critical, then important, then the first five
nice-to-have skills; the learning path is built from
`critical + important + nice_to_have[:3]`. -/
def _generate_recommendations (critical important nice_to_have : List String) :
    Recommendations :=
  { priority_order :=
      (critical.map fun skill =>
        { skill := skill, priority := "Critical", reason := "High demand and trending" }) ++
      (important.map fun skill =>
        { skill := skill, priority := "Important", reason := "Industry demand or trending" }) ++
      ((nice_to_have.take 5).map fun skill =>
        { skill := skill, priority := "Nice-to-have", reason := "Complementary skill" })
    learning_path := _create_learning_path (critical ++ important ++ nice_to_have.take 3)
    estimated_time := [] }

/-- The bucket keyword lists of `_categorize_skills`
(`skill_analyzer.py:338-348`), in the `if`/`elif` order of the source. -/
def bucketKeywords : List (String × List String) :=
  [("Programming Languages", ["python", "java", "javascript", "c++", "r", "sql"]),
   ("Machine Learning/AI", ["machine learning", "deep learning", "tensorflow", "scikit", "neural"]),
   ("Web Technologies", ["html", "css", "react", "angular", "node", "express"]),
   ("Databases", ["mysql", "postgresql", "mongodb", "database", "sql"]),
   ("Cloud & DevOps", ["aws", "azure", "cloud", "docker", "kubernetes"]),
   ("Data Analysis", ["tableau", "power bi", "excel", "analytics", "statistics"])]

/-- Bucket assignment of `_categorize_skills`: first bucket one of whose
(lower-case) keywords is a substring of the lowercased skill; `"Other"`
when none is. -/
def bucketOf (skill : String) : String :=
  match bucketKeywords.find?
      (fun p => p.2.any fun kw => strContains (pyLower skill) kw) with
  | some p => p.1
  | none => "Other"

/-- Model of `SkillGapAnalyzer._categorize_skills` (`skill_analyzer.py:321-354`):
partition `present + missing` into the fixed buckets (first matching bucket
wins), dropping empty buckets. -/
def _categorize_skills (present missing : List String) :
    List (String × List String) :=
  let all_skills := present ++ missing
  ((bucketKeywords.map Prod.fst ++ ["Other"]).map fun name =>
      (name, all_skills.filter fun s => bucketOf s == name)).filter
    fun p => !p.2.isEmpty

/-- The importance-tier loop of `analyze_skill_gap`
(`skill_analyzer.py:187-197`): each missing skill goes to exactly one of
(critical, important, nice-to-have) according to its membership in the
`hot_technologies` and `in_demand_skills` lists of the job; order is
preserved. -/
def categorizeMissing (hot_technologies in_demand_skills : List String) :
    List String → List String × List String × List String
  | [] => ([], [], [])
  | skill :: rest =>
    let t := categorizeMissing hot_technologies in_demand_skills rest
    if hot_technologies.contains skill && in_demand_skills.contains skill then
      (skill :: t.1, t.2.1, t.2.2)
    else if hot_technologies.contains skill || in_demand_skills.contains skill then
      (t.1, skill :: t.2.1, t.2.2)
    else
      (t.1, t.2.1, skill :: t.2.2)

/-- Record `GapAnalysisResult`: the dict returned by `analyze_skill_gap`
(`skill_analyzer.py:199-216`). -/
structure GapAnalysisResult where
  target_job : String
  proficiency_score : ℚ
  total_required_skills : Nat
  skills_present : Nat
  matched_skills : List SkillMatch
  present_skills : List String
  missing_skills : List String
  critical_missing : List String
  important_missing : List String
  nice_to_have_missing : List String
  missing_hot_technologies : List String
  missing_in_demand : List String
  recommendations : Recommendations
  skill_categories : List (String × List String)
  deriving Repr, DecidableEq

/-- The local `matched_skill_names` of `analyze_skill_gap`
(`skill_analyzer.py:164-165`). -/
def matched_skill_names (sem : String → List ℚ) (fz : String → String → ℚ)
    (skill_list : List String) (similarity_threshold : ℚ)
    (resume_skills : List String) : List String :=
  (extract_and_match_skills sem fz skill_list similarity_threshold resume_skills).map
    (·.matched_skill)

/-- The local `required_skills` of `analyze_skill_gap`
(`skill_analyzer.py:168-169`): the raw skill-name list of the requirement
entries of the target job (no deduplication is performed). -/
def required_skills_of (job_skill_mapping : List (String × JobRequirements))
    (target_job : String) : List String :=
  (get_job_required_skills job_skill_mapping target_job).skills.map (·.skill)

/-- Model of `SkillGapAnalyzer.analyze_skill_gap` (`skill_analyzer.py:150-216`). -/
def analyze_skill_gap (sem : String → List ℚ) (fz : String → String → ℚ)
    (skill_list : List String) (similarity_threshold : ℚ)
    (job_skill_mapping : List (String × JobRequirements))
    (resume_skills : List String) (target_job : String) : GapAnalysisResult :=
  let matched_skills := extract_and_match_skills sem fz skill_list similarity_threshold resume_skills
  let names := matched_skill_names sem fz skill_list similarity_threshold resume_skills
  let job_requirements := get_job_required_skills job_skill_mapping target_job
  let required_skills := required_skills_of job_skill_mapping target_job
  let hot_technologies := job_requirements.hot_technologies
  let in_demand_skills := job_requirements.in_demand_skills
  let missing_skills := required_skills.filter fun skill => !names.contains skill
  let present_skills := required_skills.filter fun skill => names.contains skill
  let missing_hot_tech := hot_technologies.filter fun skill => !names.contains skill
  let missing_in_demand := in_demand_skills.filter fun skill => !names.contains skill
  let total_required := required_skills.length
  let skills_present := present_skills.length
  let proficiency_score := ((skills_present : ℚ) / (max total_required 1 : ℕ)) * 100
  let tiers := categorizeMissing hot_technologies in_demand_skills missing_skills
  { target_job := target_job
    proficiency_score := proficiency_score
    total_required_skills := total_required
    skills_present := skills_present
    matched_skills := matched_skills
    present_skills := present_skills
    missing_skills := missing_skills
    critical_missing := tiers.1
    important_missing := tiers.2.1
    nice_to_have_missing := tiers.2.2
    missing_hot_technologies := missing_hot_tech
    missing_in_demand := missing_in_demand
    recommendations := _generate_recommendations tiers.1 tiers.2.1 tiers.2.2
    skill_categories := _categorize_skills present_skills missing_skills }

/-- The parsed content of the skill-embeddings snapshot file
(`embedding_data` at `skill_analyzer.py:57-61`). -/
structure EmbeddingData where
  skills : List String
  embeddings : List (List ℚ)
  deriving Repr, DecidableEq

/-- The analyzer state set up by `load_skill_data`
(`skill_analyzer.py:46-48,60-67`). -/
structure AnalyzerState where
  skill_list : List String
  skill_embeddings : List (List ℚ)
  job_skill_mapping : List (String × JobRequirements)
  deriving Repr, DecidableEq

/-- Model of `SkillGapAnalyzer.load_skill_data` (`skill_analyzer.py:53-73`), modelled
over already-parsed file contents (file IO and JSON parsing are outside the
model).  The source assigns `skills` and `embeddings` directly to the state
with no validation of any kind; in particular it performs no length
comparison between the two lists, and no `DataIntegrityError` (or any other
dedicated error type) exists anywhere in the repository. -/
def load_skill_data (embedding_data : EmbeddingData)
    (job_skill_mapping : List (String × JobRequirements)) : AnalyzerState :=
  { skill_list := embedding_data.skills
    skill_embeddings := embedding_data.embeddings
    job_skill_mapping := job_skill_mapping }

/-- Constructor default for `similarity_threshold` (`skill_analyzer.py:28`). -/
def default_similarity_threshold : ℚ := 7 / 10

/-! ### Supporting lemmas -/

theorem bestWithIdx_map_fst (l : List ℚ) :
    (bestWithIdx l).map Prod.fst = listMax l := by
  induction l with
  | nil => rfl
  | cons x xs ih =>
    simp only [bestWithIdx, listMax]
    cases hxs : bestWithIdx xs with
    | none =>
      rw [hxs] at ih
      simp only [Option.map_none'] at ih
      rw [← ih]
      rfl
    | some p =>
      rw [hxs] at ih
      simp only [Option.map_some'] at ih
      rw [← ih]
      by_cases hge : x ≥ p.1
      · simp only [hge, if_pos, Option.map_some']
        rw [max_eq_left hge]
      · simp only [hge, if_neg, Option.map_some', not_false_eq_true]
        rw [max_eq_right (le_of_not_ge hge)]

theorem listMax_eq_none_iff {l : List ℚ} (h : listMax l = none) : l = [] := by
  cases l with
  | nil => rfl
  | cons x xs =>
    simp only [listMax] at h
    cases hxs : listMax xs <;> rw [hxs] at h <;> exact (Option.some_ne_none _ h).elim

theorem listMax_le_of_mem {l : List ℚ} {m x : ℚ}
    (hm : listMax l = some m) (hx : x ∈ l) : x ≤ m := by
  induction l generalizing m with
  | nil => cases hx
  | cons y ys ih =>
    simp only [listMax] at hm
    cases hys : listMax ys with
    | none =>
      rw [hys] at hm
      simp only [Option.some.injEq] at hm
      subst hm
      cases hx with
      | head => exact le_refl _
      | tail _ hmem => rw [listMax_eq_none_iff hys] at hmem; cases hmem
    | some m' =>
      rw [hys] at hm
      simp only [Option.some.injEq] at hm
      subst hm
      cases hx with
      | head => exact le_max_left _ _
      | tail _ hmem => exact le_trans (ih hys hmem) (le_max_right _ _)

theorem listMax_mem {l : List ℚ} {m : ℚ} (hm : listMax l = some m) : m ∈ l := by
  induction l generalizing m with
  | nil => cases hm
  | cons y ys ih =>
    simp only [listMax] at hm
    cases hys : listMax ys with
    | none =>
      rw [hys] at hm
      simp only [Option.some.injEq] at hm
      subst hm
      exact List.mem_cons_self _ _
    | some m' =>
      rw [hys] at hm
      simp only [Option.some.injEq] at hm
      subst hm
      rcases max_choice y m' with h | h <;> rw [h]
      · exact List.mem_cons_self _ _
      · exact List.mem_cons_of_mem _ (ih hys)

theorem listMax_exists_of_mem {l : List ℚ} {x : ℚ} (hx : x ∈ l) :
    ∃ m, listMax l = some m ∧ x ≤ m := by
  cases hl : listMax l with
  | none =>
    cases l with
    | nil => cases hx
    | cons y ys => simp only [listMax] at hl; cases hys : listMax ys <;> rw [hys] at hl <;> cases hl
  | some m => exact ⟨m, rfl, listMax_le_of_mem hl hx⟩

theorem categorizeMissing_eq_filters (hot dem l : List String) :
    categorizeMissing hot dem l =
      (l.filter (fun s => hot.contains s && dem.contains s),
       l.filter (fun s => !(hot.contains s && dem.contains s) &&
         (hot.contains s || dem.contains s)),
       l.filter (fun s => !(hot.contains s && dem.contains s) &&
         !(hot.contains s || dem.contains s))) := by
  induction l with
  | nil => rfl
  | cons x xs ih =>
    by_cases hh : x ∈ hot <;> by_cases hd : x ∈ dem <;>
      simp [categorizeMissing, ih, List.filter_cons, hh, hd]

theorem analyze_missing_eq (sem : String → List ℚ) (fz : String → String → ℚ)
    (skill_list : List String) (similarity_threshold : ℚ)
    (job_skill_mapping : List (String × JobRequirements))
    (resume_skills : List String) (target_job : String) :
    (analyze_skill_gap sem fz skill_list similarity_threshold job_skill_mapping
      resume_skills target_job).missing_skills =
    (required_skills_of job_skill_mapping target_job).filter fun skill =>
      !(matched_skill_names sem fz skill_list similarity_threshold resume_skills).contains skill :=
  rfl

theorem analyze_present_eq (sem : String → List ℚ) (fz : String → String → ℚ)
    (skill_list : List String) (similarity_threshold : ℚ)
    (job_skill_mapping : List (String × JobRequirements))
    (resume_skills : List String) (target_job : String) :
    (analyze_skill_gap sem fz skill_list similarity_threshold job_skill_mapping
      resume_skills target_job).present_skills =
    (required_skills_of job_skill_mapping target_job).filter fun skill =>
      (matched_skill_names sem fz skill_list similarity_threshold resume_skills).contains skill :=
  rfl

theorem analyze_score_eq (sem : String → List ℚ) (fz : String → String → ℚ)
    (skill_list : List String) (similarity_threshold : ℚ)
    (job_skill_mapping : List (String × JobRequirements))
    (resume_skills : List String) (target_job : String) :
    (analyze_skill_gap sem fz skill_list similarity_threshold job_skill_mapping
      resume_skills target_job).proficiency_score =
    (((analyze_skill_gap sem fz skill_list similarity_threshold job_skill_mapping
        resume_skills target_job).present_skills.length : ℚ) /
      (max (required_skills_of job_skill_mapping target_job).length 1 : ℕ)) * 100 :=
  rfl

theorem analyze_tiers_eq (sem : String → List ℚ) (fz : String → String → ℚ)
    (skill_list : List String) (similarity_threshold : ℚ)
    (job_skill_mapping : List (String × JobRequirements))
    (resume_skills : List String) (target_job : String) :
    ((analyze_skill_gap sem fz skill_list similarity_threshold job_skill_mapping
        resume_skills target_job).critical_missing,
     (analyze_skill_gap sem fz skill_list similarity_threshold job_skill_mapping
        resume_skills target_job).important_missing,
     (analyze_skill_gap sem fz skill_list similarity_threshold job_skill_mapping
        resume_skills target_job).nice_to_have_missing) =
    categorizeMissing
      (get_job_required_skills job_skill_mapping target_job).hot_technologies
      (get_job_required_skills job_skill_mapping target_job).in_demand_skills
      ((analyze_skill_gap sem fz skill_list similarity_threshold job_skill_mapping
        resume_skills target_job).missing_skills) :=
  rfl

theorem analyze_path_eq (sem : String → List ℚ) (fz : String → String → ℚ)
    (skill_list : List String) (similarity_threshold : ℚ)
    (job_skill_mapping : List (String × JobRequirements))
    (resume_skills : List String) (target_job : String) :
    (analyze_skill_gap sem fz skill_list similarity_threshold job_skill_mapping
      resume_skills target_job).recommendations.learning_path =
    _create_learning_path
      ((analyze_skill_gap sem fz skill_list similarity_threshold job_skill_mapping
          resume_skills target_job).critical_missing ++
       (analyze_skill_gap sem fz skill_list similarity_threshold job_skill_mapping
          resume_skills target_job).important_missing ++
       ((analyze_skill_gap sem fz skill_list similarity_threshold job_skill_mapping
          resume_skills target_job).nice_to_have_missing).take 3) :=
  rfl

theorem create_learning_path_skill_mem {skills : List String}
    {item : LearningPathItem} (h : item ∈ _create_learning_path skills) :
    item.skill ∈ skills := by
  simp only [_create_learning_path, List.mem_flatten, List.mem_map] at h
  obtain ⟨l, ⟨category, _, rfl⟩, hitem⟩ := h
  obtain ⟨skill, hskill, rfl⟩ := List.mem_map.mp hitem
  exact List.mem_of_mem_filter hskill

theorem bestWithIdx_of_listMax {l : List ℚ} {m : ℚ} (h : listMax l = some m) :
    ∃ i, bestWithIdx l = some (m, i) := by
  have hmap := bestWithIdx_map_fst l
  rw [h] at hmap
  cases hb : bestWithIdx l with
  | none => rw [hb] at hmap; exact absurd hmap (by simp)
  | some p =>
    obtain ⟨a, i⟩ := p
    rw [hb] at hmap
    simp only [Option.map_some', Option.some.injEq] at hmap
    subst hmap
    exact ⟨i, rfl⟩

theorem matchOne_eq (sem : String → List ℚ) (fz : String → String → ℚ)
    (skill_list : List String) (th : ℚ) (s : String)
    (bs : ℚ) (bi : Nat) (bf : ℚ) (fi : Nat)
    (h1 : bestWithIdx (sem s) = some (bs, bi))
    (h2 : bestWithIdx (fuzzyScores fz skill_list s) = some (bf, fi)) :
    matchOne sem fz skill_list th s =
      if (if bs ≥ bf then bs else bf) ≥ th then
        some { original_skill := s
               matched_skill := skill_list.getD (if bs ≥ bf then bi else fi) ""
               confidence := if bs ≥ bf then bs else bf
               match_type := if bs ≥ bf then "semantic" else "fuzzy" }
      else none := by
  simp only [matchOne, h1, h2]

theorem matchOne_original_skill {sem : String → List ℚ} {fz : String → String → ℚ}
    {skill_list : List String} {th : ℚ} {s : String} {m : SkillMatch}
    (h : matchOne sem fz skill_list th s = some m) : m.original_skill = s := by
  rcases h1 : bestWithIdx (sem s) with _ | ⟨bs, bi⟩ <;>
    rcases h2 : bestWithIdx (fuzzyScores fz skill_list s) with _ | ⟨bf, fi⟩ <;>
      simp only [matchOne, h1, h2] at h
  · exact Option.noConfusion h
  · exact Option.noConfusion h
  · exact Option.noConfusion h
  · repeat' split at h
    all_goals
      first
      | (rw [Option.some_inj] at h; subst h; rfl)
      | exact Option.noConfusion h

theorem matchOne_spec (sem : String → List ℚ) (fz : String → String → ℚ)
    (skill_list : List String) (th : ℚ) (s : String) (best_sem best_fuzzy : ℚ)
    (hbs : listMax (sem s) = some best_sem)
    (hbf : listMax (fuzzyScores fz skill_list s) = some best_fuzzy) :
    ((matchOne sem fz skill_list th s).isSome ↔ max best_sem best_fuzzy ≥ th) ∧
    ∀ m, matchOne sem fz skill_list th s = some m →
      m.original_skill = s ∧ m.confidence = max best_sem best_fuzzy ∧
      m.match_type = (if best_sem ≥ best_fuzzy then "semantic" else "fuzzy") := by
  obtain ⟨bi, h1⟩ := bestWithIdx_of_listMax hbs
  obtain ⟨fi, h2⟩ := bestWithIdx_of_listMax hbf
  rw [matchOne_eq sem fz skill_list th s best_sem bi best_fuzzy fi h1 h2]
  have hmax : (if best_sem ≥ best_fuzzy then best_sem else best_fuzzy) =
      max best_sem best_fuzzy := by
    by_cases hc : best_sem ≥ best_fuzzy
    · rw [if_pos hc, max_eq_left hc]
    · rw [if_neg hc, max_eq_right (le_of_not_ge hc)]
  rw [hmax]
  constructor
  · by_cases hth : max best_sem best_fuzzy ≥ th
    · simp [hth]
    · simp [hth]
  · intro m hm
    by_cases hth : max best_sem best_fuzzy ≥ th
    · rw [if_pos hth, Option.some_inj] at hm
      subst hm
      exact ⟨rfl, rfl, rfl⟩
    · rw [if_neg hth] at hm
      exact Option.noConfusion hm

theorem extract_eq_filterMap (sem : String → List ℚ) (fz : String → String → ℚ)
    (skill_list : List String) (th : ℚ) {resume_skills : List String}
    (h : resume_skills ≠ []) :
    extract_and_match_skills sem fz skill_list th resume_skills =
      resume_skills.filterMap (matchOne sem fz skill_list th) := by
  cases resume_skills with
  | nil => exact absurd rfl h
  | cons x xs => rfl

/-! ### Claim theorems -/

/-- Claim C1:  For every candidate skill string in a Match call over a
non-empty vocabulary (`best_sem`/`best_fuzzy` are the best semantic cosine
similarity and the best lexical edit-distance ratio over the vocabulary,
which exist exactly when the vocabulary is non-empty), the emitted match
uses whichever of the two scores is numerically higher, with semantic
preferred on ties and the winning method recorded as `match_type`, and a
`SkillMatch` is emitted for that candidate if and only if the winning score
is ≥ `similarity_threshold`; candidates below threshold produce no output
entry. -/
theorem c1_match_selection_rule (sem : String → List ℚ) (fz : String → String → ℚ)
    (skill_list : List String) (similarity_threshold : ℚ)
    (resume_skills : List String) (resume_skill : String) (best_sem best_fuzzy : ℚ)
    (hbs : listMax (sem resume_skill) = some best_sem)
    (hbf : listMax (fuzzyScores fz skill_list resume_skill) = some best_fuzzy)
    (hc : resume_skill ∈ resume_skills) :
    ((matchOne sem fz skill_list similarity_threshold resume_skill).isSome ↔
      max best_sem best_fuzzy ≥ similarity_threshold) ∧
    (∀ m, matchOne sem fz skill_list similarity_threshold resume_skill = some m →
      m.original_skill = resume_skill ∧
      m.confidence = max best_sem best_fuzzy ∧
      m.match_type = (if best_sem ≥ best_fuzzy then "semantic" else "fuzzy") ∧
      m ∈ extract_and_match_skills sem fz skill_list similarity_threshold resume_skills) ∧
    (matchOne sem fz skill_list similarity_threshold resume_skill = none →
      ∀ m ∈ extract_and_match_skills sem fz skill_list similarity_threshold resume_skills,
        m.original_skill ≠ resume_skill) := by
  obtain ⟨hiff, hsome⟩ :=
    matchOne_spec sem fz skill_list similarity_threshold resume_skill best_sem best_fuzzy hbs hbf
  have hext := extract_eq_filterMap sem fz skill_list similarity_threshold
    (List.ne_nil_of_mem hc)
  refine ⟨hiff, ?_, ?_⟩
  · intro m hm
    obtain ⟨ho, hconf, hty⟩ := hsome m hm
    refine ⟨ho, hconf, hty, ?_⟩
    rw [hext]
    exact List.mem_filterMap.mpr ⟨resume_skill, hc, hm⟩
  · intro hnone m hmem hoeq
    rw [hext] at hmem
    obtain ⟨a, ha, hfa⟩ := List.mem_filterMap.mp hmem
    have : m.original_skill = a := matchOne_original_skill hfa
    rw [hoeq] at this
    rw [← this] at hfa
    rw [hnone] at hfa
    exact Option.noConfusion hfa

/-- Witness for claim C1 at a concrete input: vocabulary `["Python", "SQL"]`,
semantic scores `[2, 1]`, all fuzzy ratios `0`, threshold `1`: the semantic
side wins and the match is emitted.  (Integer-valued rationals are used so
that the kernel can evaluate the rational arithmetic by `decide`.) -/
theorem c1_match_selection_rule_witness :
    listMax ((fun _ => [(2 : ℚ), 1]) "py") = some 2 ∧
    listMax (fuzzyScores (fun _ _ => (0 : ℚ)) ["Python", "SQL"] "py") = some 0 ∧
    "py" ∈ ["py"] ∧
    (((matchOne (fun _ => [(2 : ℚ), 1]) (fun _ _ => (0 : ℚ)) ["Python", "SQL"]
        1 "py").isSome ↔ max (2 : ℚ) 0 ≥ 1) ∧
    (∀ m, matchOne (fun _ => [(2 : ℚ), 1]) (fun _ _ => (0 : ℚ)) ["Python", "SQL"]
        1 "py" = some m →
      m.original_skill = "py" ∧
      m.confidence = max (2 : ℚ) 0 ∧
      m.match_type = (if (2 : ℚ) ≥ 0 then "semantic" else "fuzzy") ∧
      m ∈ extract_and_match_skills (fun _ => [(2 : ℚ), 1]) (fun _ _ => (0 : ℚ))
        ["Python", "SQL"] 1 ["py"]) ∧
    (matchOne (fun _ => [(2 : ℚ), 1]) (fun _ _ => (0 : ℚ)) ["Python", "SQL"]
        1 "py" = none →
      ∀ m ∈ extract_and_match_skills (fun _ => [(2 : ℚ), 1]) (fun _ _ => (0 : ℚ))
          ["Python", "SQL"] 1 ["py"],
        m.original_skill ≠ "py")) :=
  ⟨by decide, by decide, by decide,
   c1_match_selection_rule (fun _ => [(2 : ℚ), 1]) (fun _ _ => (0 : ℚ))
     ["Python", "SQL"] 1 ["py"] "py" 2 0 (by decide) (by decide) (by decide)⟩

/-- Claim C8:  For every candidate skill string equal case-insensitively to
some canonical vocabulary entry, and every `similarity_threshold ≤ 1`, Match
emits a SkillMatch for that candidate with confidence exactly `1`
("at or near 1.0"); an exact (case-insensitive) match is never rejected by
the threshold.  The hypotheses state the defining properties of the external
scorers: the lexical ratio is `1` on identical strings and never exceeds
`1`, and the cosine-similarity row is non-empty (non-empty vocabulary) with
entries bounded by `1`. -/
theorem c8_exact_match_never_rejected (sem : String → List ℚ)
    (fz : String → String → ℚ) (skill_list : List String)
    (similarity_threshold : ℚ) (resume_skills : List String)
    (resume_skill v : String)
    (hv : v ∈ skill_list)
    (hlow : pyLower resume_skill = pyLower v)
    (hrefl : ∀ s, fz s s = 1)
    (hub : ∀ a b, fz a b ≤ 1)
    (hsem_ne : sem resume_skill ≠ [])
    (hsem_ub : ∀ q ∈ sem resume_skill, q ≤ 1)
    (hthr : similarity_threshold ≤ 1)
    (hc : resume_skill ∈ resume_skills) :
    ∃ m ∈ extract_and_match_skills sem fz skill_list similarity_threshold resume_skills,
      m.original_skill = resume_skill ∧ m.confidence = 1 := by
  have h1 : fz (pyLower resume_skill) (pyLower v) = 1 := by rw [hlow]; exact hrefl _
  have hmem1 : (1 : ℚ) ∈ fuzzyScores fz skill_list resume_skill :=
    List.mem_map.mpr ⟨v, hv, h1⟩
  obtain ⟨bf, hbf, hbf1⟩ := listMax_exists_of_mem hmem1
  have hbf_ub : bf ≤ 1 := by
    obtain ⟨a, _, hfa⟩ := List.mem_map.mp (listMax_mem hbf)
    rw [← hfa]
    exact hub _ _
  have hbf_eq : bf = 1 := le_antisymm hbf_ub hbf1
  obtain ⟨bs, hbs⟩ : ∃ m, listMax (sem resume_skill) = some m := by
    cases hsl : listMax (sem resume_skill) with
    | none => exact absurd (listMax_eq_none_iff hsl) hsem_ne
    | some m => exact ⟨m, rfl⟩
  have hbs_ub : bs ≤ 1 := hsem_ub _ (listMax_mem hbs)
  have hmax : max bs bf = 1 := by
    rw [hbf_eq]
    exact max_eq_right hbs_ub
  obtain ⟨hiff, hsome⟩ :=
    matchOne_spec sem fz skill_list similarity_threshold resume_skill bs bf hbs hbf
  have hissome : (matchOne sem fz skill_list similarity_threshold resume_skill).isSome :=
    hiff.mpr (by rw [hmax]; exact hthr)
  obtain ⟨m, hm⟩ := Option.isSome_iff_exists.mp hissome
  obtain ⟨ho, hconf, _⟩ := hsome m hm
  refine ⟨m, ?_, ho, by rw [hconf, hmax]⟩
  rw [extract_eq_filterMap sem fz skill_list similarity_threshold (List.ne_nil_of_mem hc)]
  exact List.mem_filterMap.mpr ⟨resume_skill, hc, hm⟩

/-- Witness for claim C8: candidate `"python"` against vocabulary entry
`"python"`, constant unit lexical ratio, semantic row `[0]`, threshold `1`. -/
theorem c8_exact_match_never_rejected_witness :
    "python" ∈ ["python"] ∧
    pyLower "python" = pyLower "python" ∧
    (1 : ℚ) ≤ 1 ∧
    ∃ m ∈ extract_and_match_skills (fun _ => [(0 : ℚ)]) (fun _ _ => (1 : ℚ))
        ["python"] 1 ["python"],
      m.original_skill = "python" ∧ m.confidence = 1 :=
  ⟨by decide, rfl, le_refl 1,
   c8_exact_match_never_rejected (fun _ => [(0 : ℚ)]) (fun _ _ => (1 : ℚ))
     ["python"] 1 ["python"] "python" "python"
     (by decide) rfl (fun _ => rfl) (fun _ _ => le_refl 1)
     (by decide) (by decide) (le_refl 1) (by decide)⟩

theorem analyze_total_eq (sem : String → List ℚ) (fz : String → String → ℚ)
    (skill_list : List String) (similarity_threshold : ℚ)
    (job_skill_mapping : List (String × JobRequirements))
    (resume_skills : List String) (target_job : String) :
    (analyze_skill_gap sem fz skill_list similarity_threshold job_skill_mapping
      resume_skills target_job).total_required_skills =
    (required_skills_of job_skill_mapping target_job).length :=
  rfl

theorem analyze_critical_eq (sem : String → List ℚ) (fz : String → String → ℚ)
    (skill_list : List String) (similarity_threshold : ℚ)
    (job_skill_mapping : List (String × JobRequirements))
    (resume_skills : List String) (target_job : String) :
    (analyze_skill_gap sem fz skill_list similarity_threshold job_skill_mapping
      resume_skills target_job).critical_missing =
    (analyze_skill_gap sem fz skill_list similarity_threshold job_skill_mapping
      resume_skills target_job).missing_skills.filter fun s =>
        (get_job_required_skills job_skill_mapping target_job).hot_technologies.contains s &&
        (get_job_required_skills job_skill_mapping target_job).in_demand_skills.contains s := by
  have h := categorizeMissing_eq_filters
    (get_job_required_skills job_skill_mapping target_job).hot_technologies
    (get_job_required_skills job_skill_mapping target_job).in_demand_skills
    ((analyze_skill_gap sem fz skill_list similarity_threshold job_skill_mapping
      resume_skills target_job).missing_skills)
  calc (analyze_skill_gap sem fz skill_list similarity_threshold job_skill_mapping
      resume_skills target_job).critical_missing
      = (categorizeMissing
          (get_job_required_skills job_skill_mapping target_job).hot_technologies
          (get_job_required_skills job_skill_mapping target_job).in_demand_skills
          ((analyze_skill_gap sem fz skill_list similarity_threshold job_skill_mapping
            resume_skills target_job).missing_skills)).1 := rfl
    _ = _ := by rw [h]

theorem analyze_important_eq (sem : String → List ℚ) (fz : String → String → ℚ)
    (skill_list : List String) (similarity_threshold : ℚ)
    (job_skill_mapping : List (String × JobRequirements))
    (resume_skills : List String) (target_job : String) :
    (analyze_skill_gap sem fz skill_list similarity_threshold job_skill_mapping
      resume_skills target_job).important_missing =
    (analyze_skill_gap sem fz skill_list similarity_threshold job_skill_mapping
      resume_skills target_job).missing_skills.filter fun s =>
        !((get_job_required_skills job_skill_mapping target_job).hot_technologies.contains s &&
          (get_job_required_skills job_skill_mapping target_job).in_demand_skills.contains s) &&
        ((get_job_required_skills job_skill_mapping target_job).hot_technologies.contains s ||
         (get_job_required_skills job_skill_mapping target_job).in_demand_skills.contains s) := by
  have h := categorizeMissing_eq_filters
    (get_job_required_skills job_skill_mapping target_job).hot_technologies
    (get_job_required_skills job_skill_mapping target_job).in_demand_skills
    ((analyze_skill_gap sem fz skill_list similarity_threshold job_skill_mapping
      resume_skills target_job).missing_skills)
  calc (analyze_skill_gap sem fz skill_list similarity_threshold job_skill_mapping
      resume_skills target_job).important_missing
      = (categorizeMissing
          (get_job_required_skills job_skill_mapping target_job).hot_technologies
          (get_job_required_skills job_skill_mapping target_job).in_demand_skills
          ((analyze_skill_gap sem fz skill_list similarity_threshold job_skill_mapping
            resume_skills target_job).missing_skills)).2.1 := rfl
    _ = _ := by rw [h]

theorem analyze_nice_eq (sem : String → List ℚ) (fz : String → String → ℚ)
    (skill_list : List String) (similarity_threshold : ℚ)
    (job_skill_mapping : List (String × JobRequirements))
    (resume_skills : List String) (target_job : String) :
    (analyze_skill_gap sem fz skill_list similarity_threshold job_skill_mapping
      resume_skills target_job).nice_to_have_missing =
    (analyze_skill_gap sem fz skill_list similarity_threshold job_skill_mapping
      resume_skills target_job).missing_skills.filter fun s =>
        !((get_job_required_skills job_skill_mapping target_job).hot_technologies.contains s &&
          (get_job_required_skills job_skill_mapping target_job).in_demand_skills.contains s) &&
        !((get_job_required_skills job_skill_mapping target_job).hot_technologies.contains s ||
          (get_job_required_skills job_skill_mapping target_job).in_demand_skills.contains s) := by
  have h := categorizeMissing_eq_filters
    (get_job_required_skills job_skill_mapping target_job).hot_technologies
    (get_job_required_skills job_skill_mapping target_job).in_demand_skills
    ((analyze_skill_gap sem fz skill_list similarity_threshold job_skill_mapping
      resume_skills target_job).missing_skills)
  calc (analyze_skill_gap sem fz skill_list similarity_threshold job_skill_mapping
      resume_skills target_job).nice_to_have_missing
      = (categorizeMissing
          (get_job_required_skills job_skill_mapping target_job).hot_technologies
          (get_job_required_skills job_skill_mapping target_job).in_demand_skills
          ((analyze_skill_gap sem fz skill_list similarity_threshold job_skill_mapping
            resume_skills target_job).missing_skills)).2.2 := rfl
    _ = _ := by rw [h]

/-- Claim C3:  For every job and every candidate-skill list (over any vocabulary
and scorers), the `present_skills` of the analyzer and `missing_skills` are
disjoint and their union, as a set, equals the deduplicated required-skill
set of the job (the `toFinset` of the raw required-skill list). -/
theorem c3_present_missing_partition (sem : String → List ℚ)
    (fz : String → String → ℚ) (skill_list : List String)
    (similarity_threshold : ℚ) (job_skill_mapping : List (String × JobRequirements))
    (resume_skills : List String) (target_job : String) :
    (∀ s, ¬(s ∈ (analyze_skill_gap sem fz skill_list similarity_threshold
        job_skill_mapping resume_skills target_job).present_skills ∧
      s ∈ (analyze_skill_gap sem fz skill_list similarity_threshold
        job_skill_mapping resume_skills target_job).missing_skills)) ∧
    ((analyze_skill_gap sem fz skill_list similarity_threshold
        job_skill_mapping resume_skills target_job).present_skills.toFinset ∪
     (analyze_skill_gap sem fz skill_list similarity_threshold
        job_skill_mapping resume_skills target_job).missing_skills.toFinset =
     (required_skills_of job_skill_mapping target_job).toFinset) := by
  constructor
  · intro s hs
    obtain ⟨hp, hm⟩ := hs
    rw [analyze_present_eq] at hp
    rw [analyze_missing_eq] at hm
    simp only [List.mem_filter] at hp hm
    rw [hp.2] at hm
    exact absurd hm.2 (by simp)
  · ext s
    simp only [Finset.mem_union, List.mem_toFinset, analyze_present_eq,
      analyze_missing_eq, List.mem_filter, Bool.not_eq_true', Bool.not_eq_true,
      ← Bool.not_eq_true]
    tauto

/-- Claim C4:  For every gap-analysis result, each missing skill is placed in
exactly one importance tier, driven by the membership of that skill in the `hot_technologies` /
`in_demand_skills` lists of the job entry (its flags): both →
Critical, exactly one → Important, neither → Nice-to-have; consequently
`critical_missing`, `important_missing` and `nice_to_have_missing` are
pairwise disjoint and their union equals `missing_skills`. -/
theorem c4_importance_tiers (sem : String → List ℚ)
    (fz : String → String → ℚ) (skill_list : List String)
    (similarity_threshold : ℚ) (job_skill_mapping : List (String × JobRequirements))
    (resume_skills : List String) (target_job : String) :
    (∀ s, s ∈ (analyze_skill_gap sem fz skill_list similarity_threshold
        job_skill_mapping resume_skills target_job).critical_missing ↔
      s ∈ (analyze_skill_gap sem fz skill_list similarity_threshold
        job_skill_mapping resume_skills target_job).missing_skills ∧
      s ∈ (get_job_required_skills job_skill_mapping target_job).hot_technologies ∧
      s ∈ (get_job_required_skills job_skill_mapping target_job).in_demand_skills) ∧
    (∀ s, s ∈ (analyze_skill_gap sem fz skill_list similarity_threshold
        job_skill_mapping resume_skills target_job).important_missing ↔
      s ∈ (analyze_skill_gap sem fz skill_list similarity_threshold
        job_skill_mapping resume_skills target_job).missing_skills ∧
      (s ∈ (get_job_required_skills job_skill_mapping target_job).hot_technologies ∨
       s ∈ (get_job_required_skills job_skill_mapping target_job).in_demand_skills) ∧
      ¬(s ∈ (get_job_required_skills job_skill_mapping target_job).hot_technologies ∧
        s ∈ (get_job_required_skills job_skill_mapping target_job).in_demand_skills)) ∧
    (∀ s, s ∈ (analyze_skill_gap sem fz skill_list similarity_threshold
        job_skill_mapping resume_skills target_job).nice_to_have_missing ↔
      s ∈ (analyze_skill_gap sem fz skill_list similarity_threshold
        job_skill_mapping resume_skills target_job).missing_skills ∧
      s ∉ (get_job_required_skills job_skill_mapping target_job).hot_technologies ∧
      s ∉ (get_job_required_skills job_skill_mapping target_job).in_demand_skills) ∧
    (∀ s, ¬(s ∈ (analyze_skill_gap sem fz skill_list similarity_threshold
        job_skill_mapping resume_skills target_job).critical_missing ∧
      s ∈ (analyze_skill_gap sem fz skill_list similarity_threshold
        job_skill_mapping resume_skills target_job).important_missing)) ∧
    (∀ s, ¬(s ∈ (analyze_skill_gap sem fz skill_list similarity_threshold
        job_skill_mapping resume_skills target_job).critical_missing ∧
      s ∈ (analyze_skill_gap sem fz skill_list similarity_threshold
        job_skill_mapping resume_skills target_job).nice_to_have_missing)) ∧
    (∀ s, ¬(s ∈ (analyze_skill_gap sem fz skill_list similarity_threshold
        job_skill_mapping resume_skills target_job).important_missing ∧
      s ∈ (analyze_skill_gap sem fz skill_list similarity_threshold
        job_skill_mapping resume_skills target_job).nice_to_have_missing)) ∧
    (∀ s, s ∈ (analyze_skill_gap sem fz skill_list similarity_threshold
        job_skill_mapping resume_skills target_job).missing_skills ↔
      s ∈ (analyze_skill_gap sem fz skill_list similarity_threshold
        job_skill_mapping resume_skills target_job).critical_missing ∨
      s ∈ (analyze_skill_gap sem fz skill_list similarity_threshold
        job_skill_mapping resume_skills target_job).important_missing ∨
      s ∈ (analyze_skill_gap sem fz skill_list similarity_threshold
        job_skill_mapping resume_skills target_job).nice_to_have_missing) := by
  have h1 : ∀ s, s ∈ (analyze_skill_gap sem fz skill_list similarity_threshold
      job_skill_mapping resume_skills target_job).critical_missing ↔
      s ∈ (analyze_skill_gap sem fz skill_list similarity_threshold
        job_skill_mapping resume_skills target_job).missing_skills ∧
      s ∈ (get_job_required_skills job_skill_mapping target_job).hot_technologies ∧
      s ∈ (get_job_required_skills job_skill_mapping target_job).in_demand_skills := by
    intro s
    rw [analyze_critical_eq]
    simp [List.mem_filter]
  have h2 : ∀ s, s ∈ (analyze_skill_gap sem fz skill_list similarity_threshold
      job_skill_mapping resume_skills target_job).important_missing ↔
      s ∈ (analyze_skill_gap sem fz skill_list similarity_threshold
        job_skill_mapping resume_skills target_job).missing_skills ∧
      (s ∈ (get_job_required_skills job_skill_mapping target_job).hot_technologies ∨
       s ∈ (get_job_required_skills job_skill_mapping target_job).in_demand_skills) ∧
      ¬(s ∈ (get_job_required_skills job_skill_mapping target_job).hot_technologies ∧
        s ∈ (get_job_required_skills job_skill_mapping target_job).in_demand_skills) := by
    intro s
    rw [analyze_important_eq]
    simp [List.mem_filter]
    tauto
  have h3 : ∀ s, s ∈ (analyze_skill_gap sem fz skill_list similarity_threshold
      job_skill_mapping resume_skills target_job).nice_to_have_missing ↔
      s ∈ (analyze_skill_gap sem fz skill_list similarity_threshold
        job_skill_mapping resume_skills target_job).missing_skills ∧
      s ∉ (get_job_required_skills job_skill_mapping target_job).hot_technologies ∧
      s ∉ (get_job_required_skills job_skill_mapping target_job).in_demand_skills := by
    intro s
    rw [analyze_nice_eq]
    simp [List.mem_filter]
    tauto
  refine ⟨h1, h2, h3, ?_, ?_, ?_, ?_⟩
  · intro s ⟨ha, hb⟩
    rw [h1 s] at ha
    rw [h2 s] at hb
    exact hb.2.2 ⟨ha.2.1, ha.2.2⟩
  · intro s ⟨ha, hb⟩
    rw [h1 s] at ha
    rw [h3 s] at hb
    exact hb.2.1 ha.2.1
  · intro s ⟨ha, hb⟩
    rw [h2 s] at ha
    rw [h3 s] at hb
    rcases ha.2.1 with h | h
    · exact hb.2.1 h
    · exact hb.2.2 h
  · intro s
    constructor
    · intro hs
      by_cases hh : s ∈ (get_job_required_skills job_skill_mapping target_job).hot_technologies <;>
        by_cases hd : s ∈ (get_job_required_skills job_skill_mapping target_job).in_demand_skills
      · exact Or.inl ((h1 s).mpr ⟨hs, hh, hd⟩)
      · exact Or.inr (Or.inl ((h2 s).mpr ⟨hs, Or.inl hh, fun hc => hd hc.2⟩))
      · exact Or.inr (Or.inl ((h2 s).mpr ⟨hs, Or.inr hd, fun hc => hh hc.1⟩))
      · exact Or.inr (Or.inr ((h3 s).mpr ⟨hs, hh, hd⟩))
    · intro hs
      rcases hs with h | h | h
      · exact ((h1 s).mp h).1
      · exact ((h2 s).mp h).1
      · exact ((h3 s).mp h).1

/-- Claim C10:  Even when the required-skill list of a job contains duplicate skill
names (the analyzer performs no deduplication), `proficiency_score` is
always between `0` and `100` inclusive, because `present_skills` is a
sublist (a filter) of the required-skill list, so its length can never
exceed the length of the required list. -/
theorem c10_proficiency_score_bounds (sem : String → List ℚ)
    (fz : String → String → ℚ) (skill_list : List String)
    (similarity_threshold : ℚ) (job_skill_mapping : List (String × JobRequirements))
    (resume_skills : List String) (target_job : String) :
    0 ≤ (analyze_skill_gap sem fz skill_list similarity_threshold
      job_skill_mapping resume_skills target_job).proficiency_score ∧
    (analyze_skill_gap sem fz skill_list similarity_threshold
      job_skill_mapping resume_skills target_job).proficiency_score ≤ 100 := by
  rw [analyze_score_eq]
  have hpt : (analyze_skill_gap sem fz skill_list similarity_threshold
      job_skill_mapping resume_skills target_job).present_skills.length ≤
      (required_skills_of job_skill_mapping target_job).length := by
    rw [analyze_present_eq]
    exact List.length_filter_le _ _
  have hmax_pos : (0 : ℚ) <
      ((max (required_skills_of job_skill_mapping target_job).length 1 : ℕ) : ℚ) := by
    have : (1 : ℕ) ≤ max (required_skills_of job_skill_mapping target_job).length 1 :=
      le_max_right _ _
    exact_mod_cast Nat.lt_of_lt_of_le Nat.zero_lt_one this
  constructor
  · apply mul_nonneg
    · exact div_nonneg (Nat.cast_nonneg _) (le_of_lt hmax_pos)
    · norm_num
  · have hle : ((analyze_skill_gap sem fz skill_list similarity_threshold
        job_skill_mapping resume_skills target_job).present_skills.length : ℚ) /
        ((max (required_skills_of job_skill_mapping target_job).length 1 : ℕ) : ℚ) ≤ 1 := by
      rw [div_le_one hmax_pos]
      exact_mod_cast le_trans hpt (le_max_left _ _)
    calc ((analyze_skill_gap sem fz skill_list similarity_threshold
        job_skill_mapping resume_skills target_job).present_skills.length : ℚ) /
        ((max (required_skills_of job_skill_mapping target_job).length 1 : ℕ) : ℚ) * 100
        ≤ 1 * 100 := mul_le_mul_of_nonneg_right hle (by norm_num)
      _ = 100 := by norm_num

/-- The concrete job-skill mapping used in the C2 counterexample: job
`"J"` requires `["Python", "Python", "SQL"]` — the name `"Python"` occurs
twice — with no hot or in-demand flags. -/
def c2_mapping : List (String × JobRequirements) :=
  [("J", { skills := [{ skill := "Python" }, { skill := "Python" }, { skill := "SQL" }],
           hot_technologies := [], in_demand_skills := [], tasks := [] })]

/-- The concrete analysis of the C2 counterexample: the candidate list
`["Python"]` is matched lexically (ratio `1` on equal strings, semantic
scores `0`) against vocabulary `["Python", "SQL"]` with threshold `1` and
analyzed against job `"J"`. -/
def c2_result : GapAnalysisResult :=
  analyze_skill_gap (fun _ => [(0 : ℚ), 0])
    (fun x y => if x == y then (1 : ℚ) else 0)
    ["Python", "SQL"] 1 c2_mapping ["Python"] "J"

/-- Claim C2 (counterexample): the claim says the required-skill list is
deduplicated before scoring, so on job `"J"` (raw required list
`["Python", "Python", "SQL"]`, deduplicated `["Python", "SQL"]`, of which
exactly `"Python"` is matched) the score would be `100 * 1 / 2 = 50` over a
total of `2` required skills.  The code instead reports `total = 3`,
`present = ["Python", "Python"]` and score `200/3`: no deduplication
happens. -/
theorem c2_counterexample :
    c2_result.total_required_skills = 3 ∧
    (required_skills_of c2_mapping "J").dedup = ["Python", "SQL"] ∧
    c2_result.present_skills = ["Python", "Python"] ∧
    c2_result.proficiency_score = 200 / 3 ∧
    c2_result.proficiency_score ≠ 50 := by
  refine ⟨by decide, by decide, by decide, ?_, ?_⟩
  · show (analyze_skill_gap (fun _ => [(0 : ℚ), 0])
      (fun x y => if x == y then (1 : ℚ) else 0)
      ["Python", "SQL"] 1 c2_mapping ["Python"] "J").proficiency_score = 200 / 3
    rw [analyze_score_eq]
    have h1 : (analyze_skill_gap (fun _ => [(0 : ℚ), 0])
        (fun x y => if x == y then (1 : ℚ) else 0)
        ["Python", "SQL"] 1 c2_mapping ["Python"] "J").present_skills =
        ["Python", "Python"] := by decide
    have h2 : required_skills_of c2_mapping "J" = ["Python", "Python", "SQL"] := by decide
    rw [h1, h2]
    norm_num
  · show (analyze_skill_gap (fun _ => [(0 : ℚ), 0])
      (fun x y => if x == y then (1 : ℚ) else 0)
      ["Python", "SQL"] 1 c2_mapping ["Python"] "J").proficiency_score ≠ 50
    rw [analyze_score_eq]
    have h1 : (analyze_skill_gap (fun _ => [(0 : ℚ), 0])
        (fun x y => if x == y then (1 : ℚ) else 0)
        ["Python", "SQL"] 1 c2_mapping ["Python"] "J").present_skills =
        ["Python", "Python"] := by decide
    have h2 : required_skills_of c2_mapping "J" = ["Python", "Python", "SQL"] := by decide
    rw [h1, h2]
    norm_num

/-- Claim C2 (amended): the analyzer does **not** deduplicate the
required-skill list; `proficiency_score` equals
`100 * |present_skills| / max(|required_skills|, 1)` computed over the raw
(possibly duplicated) required-skill list, as an exact (unrounded) rational,
with `present_skills` the sublist of the raw required list whose entries
occur among the matched skill names. -/
theorem c2_amended_raw_required_scoring (sem : String → List ℚ)
    (fz : String → String → ℚ) (skill_list : List String)
    (similarity_threshold : ℚ) (job_skill_mapping : List (String × JobRequirements))
    (resume_skills : List String) (target_job : String) :
    (analyze_skill_gap sem fz skill_list similarity_threshold
      job_skill_mapping resume_skills target_job).total_required_skills =
      (required_skills_of job_skill_mapping target_job).length ∧
    (analyze_skill_gap sem fz skill_list similarity_threshold
      job_skill_mapping resume_skills target_job).present_skills =
      (required_skills_of job_skill_mapping target_job).filter (fun s =>
        (matched_skill_names sem fz skill_list similarity_threshold
          resume_skills).contains s) ∧
    (analyze_skill_gap sem fz skill_list similarity_threshold
      job_skill_mapping resume_skills target_job).proficiency_score =
      100 * ((analyze_skill_gap sem fz skill_list similarity_threshold
        job_skill_mapping resume_skills target_job).present_skills.length : ℚ) /
      ((max (required_skills_of job_skill_mapping target_job).length 1 : ℕ) : ℚ) := by
  refine ⟨rfl, rfl, ?_⟩
  rw [analyze_score_eq]
  ring

theorem analyze_critical_mem_iff (sem : String → List ℚ) (fz : String → String → ℚ)
    (skill_list : List String) (similarity_threshold : ℚ)
    (job_skill_mapping : List (String × JobRequirements))
    (resume_skills : List String) (target_job : String) (s : String) :
    s ∈ (analyze_skill_gap sem fz skill_list similarity_threshold job_skill_mapping
        resume_skills target_job).critical_missing ↔
      s ∈ (analyze_skill_gap sem fz skill_list similarity_threshold job_skill_mapping
        resume_skills target_job).missing_skills ∧
      s ∈ (get_job_required_skills job_skill_mapping target_job).hot_technologies ∧
      s ∈ (get_job_required_skills job_skill_mapping target_job).in_demand_skills := by
  rw [analyze_critical_eq]
  simp [List.mem_filter]

theorem analyze_important_mem_iff (sem : String → List ℚ) (fz : String → String → ℚ)
    (skill_list : List String) (similarity_threshold : ℚ)
    (job_skill_mapping : List (String × JobRequirements))
    (resume_skills : List String) (target_job : String) (s : String) :
    s ∈ (analyze_skill_gap sem fz skill_list similarity_threshold job_skill_mapping
        resume_skills target_job).important_missing ↔
      s ∈ (analyze_skill_gap sem fz skill_list similarity_threshold job_skill_mapping
        resume_skills target_job).missing_skills ∧
      (s ∈ (get_job_required_skills job_skill_mapping target_job).hot_technologies ∨
       s ∈ (get_job_required_skills job_skill_mapping target_job).in_demand_skills) ∧
      ¬(s ∈ (get_job_required_skills job_skill_mapping target_job).hot_technologies ∧
        s ∈ (get_job_required_skills job_skill_mapping target_job).in_demand_skills) := by
  rw [analyze_important_eq]
  simp [List.mem_filter]
  tauto

theorem analyze_nice_mem_iff (sem : String → List ℚ) (fz : String → String → ℚ)
    (skill_list : List String) (similarity_threshold : ℚ)
    (job_skill_mapping : List (String × JobRequirements))
    (resume_skills : List String) (target_job : String) (s : String) :
    s ∈ (analyze_skill_gap sem fz skill_list similarity_threshold job_skill_mapping
        resume_skills target_job).nice_to_have_missing ↔
      s ∈ (analyze_skill_gap sem fz skill_list similarity_threshold job_skill_mapping
        resume_skills target_job).missing_skills ∧
      s ∉ (get_job_required_skills job_skill_mapping target_job).hot_technologies ∧
      s ∉ (get_job_required_skills job_skill_mapping target_job).in_demand_skills := by
  rw [analyze_nice_eq]
  simp [List.mem_filter]
  tauto

/-- Claim C9: for every gap-analysis call, the `learning_path` in the
returned recommendations is built from exactly the concatenation
`critical_missing ++ important_missing ++ nice_to_have_missing.take 3`:
the skill of every path item belongs to that concatenation, and any
nice-to-have missing skill beyond (not among) the first three never appears
in the learning path even though it is in `missing_skills`. -/
theorem c9_learning_path_truncates_nice_to_have (sem : String → List ℚ)
    (fz : String → String → ℚ) (skill_list : List String)
    (similarity_threshold : ℚ) (job_skill_mapping : List (String × JobRequirements))
    (resume_skills : List String) (target_job : String) :
    (analyze_skill_gap sem fz skill_list similarity_threshold job_skill_mapping
      resume_skills target_job).recommendations.learning_path =
      _create_learning_path
        ((analyze_skill_gap sem fz skill_list similarity_threshold job_skill_mapping
          resume_skills target_job).critical_missing ++
         (analyze_skill_gap sem fz skill_list similarity_threshold job_skill_mapping
          resume_skills target_job).important_missing ++
         ((analyze_skill_gap sem fz skill_list similarity_threshold job_skill_mapping
          resume_skills target_job).nice_to_have_missing).take 3) ∧
    (∀ item ∈ (analyze_skill_gap sem fz skill_list similarity_threshold job_skill_mapping
        resume_skills target_job).recommendations.learning_path,
      item.skill ∈
        (analyze_skill_gap sem fz skill_list similarity_threshold job_skill_mapping
          resume_skills target_job).critical_missing ++
        (analyze_skill_gap sem fz skill_list similarity_threshold job_skill_mapping
          resume_skills target_job).important_missing ++
        ((analyze_skill_gap sem fz skill_list similarity_threshold job_skill_mapping
          resume_skills target_job).nice_to_have_missing).take 3) ∧
    (∀ s ∈ (analyze_skill_gap sem fz skill_list similarity_threshold job_skill_mapping
        resume_skills target_job).nice_to_have_missing,
      s ∉ ((analyze_skill_gap sem fz skill_list similarity_threshold job_skill_mapping
        resume_skills target_job).nice_to_have_missing).take 3 →
      s ∈ (analyze_skill_gap sem fz skill_list similarity_threshold job_skill_mapping
        resume_skills target_job).missing_skills ∧
      ∀ item ∈ (analyze_skill_gap sem fz skill_list similarity_threshold job_skill_mapping
          resume_skills target_job).recommendations.learning_path,
        item.skill ≠ s) := by
  refine ⟨analyze_path_eq sem fz skill_list similarity_threshold job_skill_mapping
    resume_skills target_job, ?_, ?_⟩
  · intro item hitem
    rw [analyze_path_eq] at hitem
    exact create_learning_path_skill_mem hitem
  · intro s hs hnot3
    have hsmiss : s ∈ (analyze_skill_gap sem fz skill_list similarity_threshold
        job_skill_mapping resume_skills target_job).missing_skills :=
      ((analyze_nice_mem_iff sem fz skill_list similarity_threshold job_skill_mapping
        resume_skills target_job s).mp hs).1
    refine ⟨hsmiss, ?_⟩
    intro item hitem heq
    rw [analyze_path_eq] at hitem
    have hmem := create_learning_path_skill_mem hitem
    rw [heq] at hmem
    obtain ⟨_, hnh, hnd⟩ := (analyze_nice_mem_iff sem fz skill_list similarity_threshold
      job_skill_mapping resume_skills target_job s).mp hs
    rcases List.mem_append.mp hmem with hci | h3
    · rcases List.mem_append.mp hci with hcrit | himp
      · obtain ⟨_, hh, _⟩ := (analyze_critical_mem_iff sem fz skill_list
          similarity_threshold job_skill_mapping resume_skills target_job s).mp hcrit
        exact hnh hh
      · obtain ⟨_, hor, _⟩ := (analyze_important_mem_iff sem fz skill_list
          similarity_threshold job_skill_mapping resume_skills target_job s).mp himp
        rcases hor with hh | hd
        · exact hnh hh
        · exact hnd hd
    · exact hnot3 h3

/-- Claim C6: for every job name absent from the job-skill mapping and every
candidate-skill list (any vocabulary, scorers and threshold), the gap
analysis returns a result with `total_required = 0`, `proficiency_score = 0`
and empty present and missing skill lists.  (The model is a total function:
given an absent job the source builds the empty default requirement dict and
every further step is a fold over empty lists, so no exception is raised.) -/
theorem c6_unknown_job_zero_result (sem : String → List ℚ)
    (fz : String → String → ℚ) (skill_list : List String)
    (similarity_threshold : ℚ) (job_skill_mapping : List (String × JobRequirements))
    (resume_skills : List String) (target_job : String)
    (h : job_skill_mapping.lookup target_job = none) :
    (analyze_skill_gap sem fz skill_list similarity_threshold job_skill_mapping
      resume_skills target_job).total_required_skills = 0 ∧
    (analyze_skill_gap sem fz skill_list similarity_threshold job_skill_mapping
      resume_skills target_job).proficiency_score = 0 ∧
    (analyze_skill_gap sem fz skill_list similarity_threshold job_skill_mapping
      resume_skills target_job).present_skills = [] ∧
    (analyze_skill_gap sem fz skill_list similarity_threshold job_skill_mapping
      resume_skills target_job).missing_skills = [] := by
  have hreq : required_skills_of job_skill_mapping target_job = [] := by
    unfold required_skills_of get_job_required_skills
    rw [h]
    rfl
  refine ⟨?_, ?_, ?_, ?_⟩
  · rw [analyze_total_eq, hreq]
    rfl
  · rw [analyze_score_eq, analyze_present_eq, hreq]
    simp
  · rw [analyze_present_eq, hreq]
    rfl
  · rw [analyze_missing_eq, hreq]
    rfl

/-- Witness for claim C6: the empty mapping does not contain job `"X"`, and
the analysis of candidate list `["x"]` against it yields the zero result. -/
theorem c6_unknown_job_zero_result_witness :
    (([] : List (String × JobRequirements)).lookup "X" = none) ∧
    ((analyze_skill_gap (fun _ => [(1 : ℚ)]) (fun _ _ => (0 : ℚ)) ["Python"] 1 []
        ["x"] "X").total_required_skills = 0 ∧
     (analyze_skill_gap (fun _ => [(1 : ℚ)]) (fun _ _ => (0 : ℚ)) ["Python"] 1 []
        ["x"] "X").proficiency_score = 0 ∧
     (analyze_skill_gap (fun _ => [(1 : ℚ)]) (fun _ _ => (0 : ℚ)) ["Python"] 1 []
        ["x"] "X").present_skills = [] ∧
     (analyze_skill_gap (fun _ => [(1 : ℚ)]) (fun _ _ => (0 : ℚ)) ["Python"] 1 []
        ["x"] "X").missing_skills = []) :=
  ⟨rfl, c6_unknown_job_zero_result (fun _ => [(1 : ℚ)]) (fun _ _ => (0 : ℚ))
    ["Python"] 1 [] ["x"] "X" rfl⟩

/-- Claim C5 (counterexample): the claim says loading validates that the
skill-name list and the embedding list have equal length and fails with
`DataIntegrityError` when they differ.  The source performs no such check
(and no `DataIntegrityError` exists anywhere in the repository): a snapshot
with two skill names but one embedding loads successfully into a fully
formed analyzer state. -/
theorem c5_counterexample :
    load_skill_data { skills := ["a", "b"], embeddings := [[1]] } [] =
      { skill_list := ["a", "b"], skill_embeddings := [[(1 : ℚ)]],
        job_skill_mapping := [] } ∧
    (["a", "b"] : List String).length ≠ ([[(1 : ℚ)]] : List (List ℚ)).length :=
  ⟨rfl, by decide⟩

/-- Claim C5 (amended): loading the vocabulary snapshot performs no length
validation at all: even when the skill-name list and the embedding list have
different lengths, `load_skill_data` succeeds and installs both lists
unchanged in the analyzer state (no `DataIntegrityError` — or any dedicated
error — is raised; the only exceptions the source can re-raise come from
file IO and JSON parsing, which are outside the parsed-snapshot model). -/
theorem c5_amended_no_validation (embedding_data : EmbeddingData)
    (job_skill_mapping : List (String × JobRequirements))
    (h : embedding_data.skills.length ≠ embedding_data.embeddings.length) :
    load_skill_data embedding_data job_skill_mapping =
      { skill_list := embedding_data.skills
        skill_embeddings := embedding_data.embeddings
        job_skill_mapping := job_skill_mapping } :=
  rfl

/-- Witness for claim C5 (amended) at the concrete mismatched snapshot. -/
theorem c5_amended_no_validation_witness :
    ((["a", "b"] : List String).length ≠ ([[(1 : ℚ)]] : List (List ℚ)).length) ∧
    load_skill_data { skills := ["a", "b"], embeddings := [[1]] } [] =
      { skill_list := ["a", "b"], skill_embeddings := [[(1 : ℚ)]],
        job_skill_mapping := [] } :=
  ⟨by decide, c5_amended_no_validation { skills := ["a", "b"], embeddings := [[1]] }
    [] (by decide)⟩

/-- Claim C7 (code evaluation at the failing input): the claim (and spec)
expect BuildPath on `["Docker", "Python", "SQL"]` to emit `"Python"` before
`"SQL"` before `"Docker"` in any input order.  The code instead assigns
`"Docker"` to the `programming` category — the programming keyword `"R"`
lowercases to `"r"`, which is a substring of `"docker"` — even though
`"Docker"` is listed in the `cloud` and `tools` keyword tables, so
`"Docker"` is emitted with the programming group: input
`["Docker", "Python", "SQL"]` yields `["Docker", "Python", "SQL"]` and input
`["Python", "SQL", "Docker"]` yields `["Python", "Docker", "SQL"]`, both
contradicting the claimed order. -/
theorem c7_learning_path_docker_first :
    (_create_learning_path ["Docker", "Python", "SQL"]).map LearningPathItem.skill =
      ["Docker", "Python", "SQL"] ∧
    (_create_learning_path ["Python", "SQL", "Docker"]).map LearningPathItem.skill =
      ["Python", "Docker", "SQL"] ∧
    categoryOf "Docker" = "programming" ∧
    categoryOf "Python" = "programming" ∧
    categoryOf "SQL" = "database" ∧
    (_create_learning_path ["Docker", "Python", "SQL"]).map LearningPathItem.skill ≠
      ["Python", "SQL", "Docker"] := by
  refine ⟨?_, ?_, ?_, ?_, ?_, ?_⟩ <;> decide
